import Mathlib

/-
  Verification of the JWT validation and key-caching component in
  shared/auth (jwt.go and middleware.go).

  The Go source is shallowly embedded: JSON claim values become the
  inductive type ClaimValue (numeric JSON values are modelled at integer
  precision, which covers every integral Unix-seconds timestamp exactly);
  Go maps become association lists with first-match lookup; fallible
  functions return Except String; the HTTP response consumed by fetchJWKS
  is passed in as a FetchOutcome value; time.Now is passed in as an
  integer Unix-seconds parameter.
-/

namespace AuthSpec

/-- A JSON value stored in a claims map (Go: interface\x7b\x7d produced by
encoding/json). Strings decode to str, numbers to num (integral values
only; every token timestamp in scope is a whole number of seconds), and
anything else to other. A Go type assertion .(string) succeeds exactly on
str, and .(float64) exactly on num. -/
inductive ClaimValue where
  | str (s : String)
  | num (x : Int)
  | other
  deriving DecidableEq

/-- Go jwt.MapClaims: a string-keyed map, embedded as an association list
with first-match lookup. -/
abbrev Claims := List (String × ClaimValue)

/-- Map lookup, first match wins (Go map reads; keys are unique in maps
built by json decoding, so first-match is faithful). -/
def claimLookup : Claims → String → Option ClaimValue
  | [], _ => none
  | (k, v) :: rest, key => if k = key then some v else claimLookup rest key

/-- Go type assertion value.(string) on an optional map entry. -/
def asString : Option ClaimValue → Option String
  | some (ClaimValue.str s) => some s
  | _ => none

/-- Go type assertion value.(float64) on an optional map entry. -/
def asNumber : Option ClaimValue → Option Int
  | some (ClaimValue.num x) => some x
  | _ => none

/-- Go struct JWK (jwt.go): one record of a JSON Web Key set. -/
structure JWK where
  Kty : String
  Kid : String
  Use : String
  N : String
  E : String
  deriving DecidableEq

/-- Go struct JWKSet (jwt.go). -/
structure JWKSet where
  keys : List JWK
  deriving DecidableEq

/-- Value of one base64url alphabet character (A-Z a-z 0-9 - _), none for
any character outside the alphabet. -/
def b64urlCharVal (c : Char) : Option Nat :=
  if 65 ≤ c.toNat ∧ c.toNat ≤ 90 then some (c.toNat - 65)
  else if 97 ≤ c.toNat ∧ c.toNat ≤ 122 then some (c.toNat - 97 + 26)
  else if 48 ≤ c.toNat ∧ c.toNat ≤ 57 then some (c.toNat - 48 + 52)
  else if c = '-' then some 62
  else if c = '_' then some 63
  else none

/-- Translate every character to its 6-bit value, failing on the first
character outside the base64url alphabet. -/
def b64Sextets : List Char → Option (List Nat)
  | [] => some []
  | c :: rest =>
    match b64urlCharVal c, b64Sextets rest with
    | some v, some vs => some (v :: vs)
    | _, _ => none

/-- Regroup 6-bit values into 8-bit bytes, as Go base64.RawURLEncoding
does for unpadded input: full groups of four sextets give three bytes, a
trailing group of two or three sextets gives one or two bytes (leftover
low bits dropped, matching the non-strict default decoder), and a
trailing group of one sextet is an encoding error. -/
def b64Regroup : List Nat → Option (List Nat)
  | [] => some []
  | [_] => none
  | [a, b] => some [a * 4 + b / 16]
  | [a, b, c] => some [a * 4 + b / 16, b % 16 * 16 + c / 4]
  | a :: b :: c :: d :: rest =>
    match b64Regroup rest with
    | some bytes => some ((a * 4 + b / 16) :: (b % 16 * 16 + c / 4) :: (c % 4 * 64 + d) :: bytes)
    | none => none

/-- Go base64.RawURLEncoding.DecodeString: bytes of the decoded string,
or none on invalid input. -/
def base64RawURLDecode (s : String) : Option (List Nat) :=
  match b64Sextets s.data with
  | some vs => b64Regroup vs
  | none => none

/-- Go big.Int SetBytes: interpret bytes as an unsigned big-endian
integer. -/
def bigIntSetBytes (bytes : List Nat) : Nat :=
  bytes.foldl (fun acc b => acc * 256 + b) 0

/-- Go int(e.Int64()) applied to a non-negative big.Int on a 64-bit
platform: the low 64 bits of the magnitude reinterpreted as a signed
machine word. Values at or above 2 to the 64 are silently truncated. -/
def bigIntToInt64 (x : Nat) : Int :=
  let r : Nat := x % 2 ^ 64
  if r < 2 ^ 63 then (r : Int) else (r : Int) - 2 ^ 64

/-- Go rsa.PublicKey: N is a big.Int, E is a machine int. -/
structure RSAPublicKey where
  N : Nat
  E : Int
  deriving DecidableEq

/-- jwt.go jwkToRSAPublicKey: base64url-decode the modulus, then the
exponent; on success build the key with E taken through int(e.Int64()).
The only error paths are the two decode failures. -/
def jwkToRSAPublicKey (jwk : JWK) : Except String RSAPublicKey :=
  match base64RawURLDecode jwk.N with
  | none => Except.error "failed to decode modulus"
  | some nBytes =>
    match base64RawURLDecode jwk.E with
    | none => Except.error "failed to decode exponent"
    | some eBytes =>
      Except.ok { N := bigIntSetBytes nBytes, E := bigIntToInt64 (bigIntSetBytes eBytes) }

/-- The outcome of the HTTP GET inside fetchJWKS, supplied as an input:
either a transport failure, or a response with a status code and a body
whose JSON decoding as a JWKSet either succeeds (some) or fails (none). -/
inductive FetchOutcome where
  | transportFailure
  | response (statusCode : Nat) (body : Option JWKSet)
  deriving DecidableEq

/-- jwt.go fetchJWKS: transport failure is an error; any status other
than 200 is an error; a body that does not decode is an error; otherwise
the decoded key set. -/
def fetchJWKS : FetchOutcome → Except String JWKSet
  | FetchOutcome.transportFailure => Except.error "failed to fetch JWKS"
  | FetchOutcome.response status body =>
    if status ≠ 200 then Except.error "failed to fetch JWKS: bad status"
    else
      match body with
      | none => Except.error "failed to decode JWKS"
      | some jwks => Except.ok jwks

/-- The validator key cache (Go: map from kid string to rsa.PublicKey
pointer), embedded as an association list with first-match lookup. -/
abbrev KeyCache := List (String × RSAPublicKey)

/-- Go map read keys[kid]. -/
def lookupKey : KeyCache → String → Option RSAPublicKey
  | [], _ => none
  | (k, pk) :: rest, kid => if k = kid then some pk else lookupKey rest kid

/-- Go map write keys[kid] = publicKey: replace an existing binding for
kid, or append a new one. -/
def storeKey : KeyCache → String → RSAPublicKey → KeyCache
  | [], kid, pk => [(kid, pk)]
  | (k, v) :: rest, kid, pk =>
    if k = kid then (kid, pk) :: rest else (k, v) :: storeKey rest kid pk

/-- jwt.go getPublicKey key-set scan: the first record whose Kid equals
the requested kid (the Go loop breaks at the first match). -/
def findJWK : List JWK → String → Option JWK
  | [], _ => none
  | k :: rest, kid => if k.Kid = kid then some k else findJWK rest kid

deriving instance DecidableEq for Except

/-- Result of one getPublicKey call: the key or an error, the cache
state afterwards, and how many times fetchJWKS ran (0 or 1). -/
structure GetKeyResult where
  result : Except String RSAPublicKey
  keys : KeyCache
  fetchCount : Nat
  deriving DecidableEq

/-- jwt.go getPublicKey: return a cached key without fetching; on a miss
fetch the JWKS, find the record with the requested kid, convert it, cache
it, and return it; every failure leaves the cache untouched. -/
def getPublicKey (cache : KeyCache) (fetch : FetchOutcome) (kid : String) : GetKeyResult :=
  match lookupKey cache kid with
  | some key => ⟨Except.ok key, cache, 0⟩
  | none =>
    match fetchJWKS fetch with
    | Except.error _ => ⟨Except.error "failed to fetch JWKS", cache, 1⟩
    | Except.ok jwks =>
      match findJWK jwks.keys kid with
      | none => ⟨Except.error "key with kid not found", cache, 1⟩
      | some jwk =>
        match jwkToRSAPublicKey jwk with
        | Except.error _ => ⟨Except.error "failed to convert JWK to RSA public key", cache, 1⟩
        | Except.ok publicKey => ⟨Except.ok publicKey, storeKey cache kid publicKey, 1⟩

/-- The signing method named by the alg header of a token, restricted to
the methods registered by the golang-jwt v5 library (an unregistered alg
makes parsing fail before ValidateToken gets this far, so it is out of
scope here). -/
inductive Alg where
  | RS256
  | RS384
  | RS512
  | PS256
  | PS384
  | PS512
  | HS256
  | HS384
  | HS512
  | ES256
  | ES384
  | ES512
  | EdDSA
  | algNone
  deriving DecidableEq

/-- The Go type assertion token.Method.(jwt.SigningMethodRSA pointer)
in the keyfunc of ValidateToken: it succeeds exactly for the RS methods.
The PS methods are a distinct Go type (SigningMethodRSAPSS) and fail the
assertion, as do all non-RSA methods. -/
def Alg.isRSAMethod : Alg → Bool
  | Alg.RS256 => true
  | Alg.RS384 => true
  | Alg.RS512 => true
  | _ => false

/-- A structurally well-formed compact token after decoding, carrying
exactly what ValidateToken consumes: the kid header entry (none when the
header has no kid key), the declared signing method, the payload claims
map, and sigOk, which abstracts the cryptographic check Method.Verify:
true exactly when the signature verifies under the declared method with
the public key that the kid resolves to. -/
structure Token where
  kid : Option ClaimValue
  alg : Alg
  payload : Claims
  sigOk : Bool
  deriving DecidableEq

/-- golang-jwt v5 default claims validation of exp (validator.go
verifyExpiresAt with required false): absent exp passes; a present
non-numeric exp is an invalid-type error; a numeric exp passes exactly
when the current time is strictly before it (cmp.Before with zero
leeway). Time is compared in whole Unix seconds, which decides the check
exactly for the integral timestamps in scope. -/
def verifyExpiresAtV5 (p : Claims) (now : Int) : Except String Unit :=
  match claimLookup p "exp" with
  | none => Except.ok ()
  | some (ClaimValue.num e) =>
    if now < e then Except.ok () else Except.error "token is expired"
  | some _ => Except.error "exp is invalid"

/-- golang-jwt v5 default claims validation of nbf (validator.go
verifyNotBefore with required false): absent nbf passes; a present
non-numeric nbf is an invalid-type error; a numeric nbf fails exactly
when the current time is strictly before it. -/
def verifyNotBeforeV5 (p : Claims) (now : Int) : Except String Unit :=
  match claimLookup p "nbf" with
  | none => Except.ok ()
  | some (ClaimValue.num b) =>
    if now < b then Except.error "token is not valid yet" else Except.ok ()
  | some _ => Except.error "nbf is invalid"

/-- The jwt.Parse call in ValidateToken with its keyfunc, following the
golang-jwt v5 pipeline: run the keyfunc (which rejects any method that is
not SigningMethodRSA before releasing the key), then verify the signature
with the released key, then run the default claims validation (exp and
nbf only; the library does not check iss, aud or token use by default). -/
def jwtParseVerify (t : Token) (now : Int) : Except String Unit :=
  if t.alg.isRSAMethod then
    if t.sigOk then
      match verifyExpiresAtV5 t.payload now with
      | Except.error e => Except.error e
      | Except.ok _ => verifyNotBeforeV5 t.payload now
    else Except.error "signature is invalid"
  else Except.error "unexpected signing method"

/-- jwt.go ValidateToken claim policy, token_use step: the claim must be
present, a string, and equal to access. -/
def checkTokenUse (p : Claims) : Except String Unit :=
  match asString (claimLookup p "token_use") with
  | some s => if s = "access" then Except.ok () else Except.error "invalid token use"
  | none => Except.error "invalid token use"

/-- jwt.go ValidateToken claim policy, issuer step: skipped entirely when
the validator was built with an empty issuer; otherwise the iss claim
must be present, a string, and equal to the configured issuer. -/
def checkIssuer (issuer : String) (p : Claims) : Except String Unit :=
  if issuer = "" then Except.ok ()
  else
    match asString (claimLookup p "iss") with
    | some s => if s = issuer then Except.ok () else Except.error "invalid issuer"
    | none => Except.error "invalid issuer"

/-- jwt.go ValidateToken claim policy, expiration step: the exp claim
must be present and numeric, and the token is rejected when the current
time is strictly greater than it (this manual check, unlike the library
check, would accept equality on its own). -/
def checkExp (p : Claims) (now : Int) : Except String Unit :=
  match asNumber (claimLookup p "exp") with
  | some e => if now > e then Except.error "token has expired" else Except.ok ()
  | none => Except.error "token missing exp claim"

/-- Go struct JWTValidator (jwt.go). -/
structure JWTValidator where
  jwksURL : String
  issuer : String
  keys : KeyCache
  deriving DecidableEq

/-- Go struct JWTValidatorConfig (jwt.go). -/
structure JWTValidatorConfig where
  JWKSURL : String
  Issuer : String
  deriving DecidableEq

/-- jwt.go NewJWTValidator: copy the configuration and start with an
empty key cache. -/
def NewJWTValidator (config : JWTValidatorConfig) : JWTValidator :=
  ⟨config.JWKSURL, config.Issuer, []⟩

/-- Result of one ValidateToken call: the verified claims or an error,
the key-cache state afterwards, and how many JWKS fetches ran. -/
structure ValidateResult where
  claims : Except String Claims
  keys : KeyCache
  fetchCount : Nat
  deriving DecidableEq

/-- jwt.go ValidateToken: read the kid from the unverified header, fail
if it is absent or not a string; resolve the public key through the
cache; run jwt.Parse with the RSA-only keyfunc (signature plus default
library claim validation); then check token_use, issuer and expiration in
that order; on success return the claims map. -/
def ValidateToken (v : JWTValidator) (fetch : FetchOutcome) (t : Token) (now : Int) :
    ValidateResult :=
  match asString t.kid with
  | none => ⟨Except.error "token missing kid header", v.keys, 0⟩
  | some kid =>
    let gr := getPublicKey v.keys fetch kid
    match gr.result with
    | Except.error _ => ⟨Except.error "failed to get public key", gr.keys, gr.fetchCount⟩
    | Except.ok _ =>
      match jwtParseVerify t now with
      | Except.error _ => ⟨Except.error "failed to validate token", gr.keys, gr.fetchCount⟩
      | Except.ok _ =>
        match checkTokenUse t.payload with
        | Except.error e => ⟨Except.error e, gr.keys, gr.fetchCount⟩
        | Except.ok _ =>
          match checkIssuer v.issuer t.payload with
          | Except.error e => ⟨Except.error e, gr.keys, gr.fetchCount⟩
          | Except.ok _ =>
            match checkExp t.payload now with
            | Except.error e => ⟨Except.error e, gr.keys, gr.fetchCount⟩
            | Except.ok _ => ⟨Except.ok t.payload, gr.keys, gr.fetchCount⟩

/-- True exactly when a ValidateToken outcome is a success. -/
def isOk : Except String Claims → Bool
  | Except.ok _ => true
  | Except.error _ => false

/-- jwt.go GetUserEmailFromClaims. -/
def GetUserEmailFromClaims (claims : Claims) : Option String :=
  asString (claimLookup claims "email")

/-- jwt.go GetUsernameFromClaims. -/
def GetUsernameFromClaims (claims : Claims) : Option String :=
  asString (claimLookup claims "username")

/-- jwt.go GetUserSubFromClaims. -/
def GetUserSubFromClaims (claims : Claims) : Option String :=
  asString (claimLookup claims "sub")

/-- A value stored in the Gin request context by the middleware. -/
inductive CtxValue where
  | claimsVal (c : Claims)
  | strVal (s : String)
  deriving DecidableEq

/-- Outcome of the middleware on one request: either an early JSON error
response with a status code and the body error message, with the chain
aborted, or the context entries set before the wrapped handler runs. -/
inductive MiddlewareOutcome where
  | unauthorized (status : Nat) (message : String)
  | next (entries : List (String × CtxValue))
  deriving DecidableEq

/-- middleware.go: the context entries the middleware sets on success:
jwt_claims and access_token always, then user_email, username and
user_sub when the corresponding claim is a present string. -/
def successEntries (token : String) (claims : Claims) : List (String × CtxValue) :=
  [("jwt_claims", CtxValue.claimsVal claims), ("access_token", CtxValue.strVal token)]
  ++ (match GetUserEmailFromClaims claims with
      | some email => [("user_email", CtxValue.strVal email)]
      | none => [])
  ++ (match GetUsernameFromClaims claims with
      | some username => [("username", CtxValue.strVal username)]
      | none => [])
  ++ (match GetUserSubFromClaims claims with
      | some sub => [("user_sub", CtxValue.strVal sub)]
      | none => [])

/-- Go strings.HasPrefix on character lists: the first argument starts
with the second (case-sensitive, character by character). -/
def hasPrefixChars : List Char → List Char → Bool
  | _, [] => true
  | [], _ :: _ => false
  | c :: s, p :: ps => if c = p then hasPrefixChars s ps else false

/-- Go strings.HasPrefix. -/
def goHasPrefix (s pre : String) : Bool :=
  hasPrefixChars s.data pre.data

/-- Go strings.TrimPrefix: the string without the prefix when it is
present, the string unchanged otherwise. -/
def goTrimPrefix (s pre : String) : String :=
  if goHasPrefix s pre then ⟨s.data.drop pre.data.length⟩ else s

/-- middleware.go JWTAuthMiddleware, with the call to
jwtValidator.ValidateToken abstracted as the validate argument (the Gin
GetHeader call returns the empty string for an absent header, so the
header is a plain string here). The message strings are byte-for-byte
the Go literals. -/
def JWTAuthMiddleware (validate : String → Except String Claims) (authHeader : String) :
    MiddlewareOutcome :=
  if authHeader = "" then
    MiddlewareOutcome.unauthorized 401 "Authorization header is required"
  else if ¬ goHasPrefix authHeader "Bearer " then
    MiddlewareOutcome.unauthorized 401 "Authorization header must start with \x27Bearer \x27"
  else
    let token := goTrimPrefix authHeader "Bearer "
    if token = "" then
      MiddlewareOutcome.unauthorized 401 "Token is required"
    else
      match validate token with
      | Except.error _ => MiddlewareOutcome.unauthorized 401 "Invalid or expired token"
      | Except.ok claims => MiddlewareOutcome.next (successEntries token claims)

/-- Spec-side characterization of the expiry acceptance rule: the exp
claim is present and numeric and the current time is strictly before
it. -/
def expClaimStrictlyFuture (p : Claims) (now : Int) : Bool :=
  match claimLookup p "exp" with
  | some (ClaimValue.num e) => decide (now < e)
  | _ => false

/-- An optional claim value whose string assertion succeeds is that
string. -/
theorem asString_eq_some {o : Option ClaimValue} {s : String}
    (h : asString o = some s) : o = some (ClaimValue.str s) := by
  cases o with
  | none => simp [asString] at h
  | some v =>
    cases v with
    | str t => simp [asString] at h; rw [h]
    | num x => simp [asString] at h
    | other => simp [asString] at h

/-- Looking up a key right after storing it finds the stored value. -/
theorem lookupKey_storeKey_self (c : KeyCache) (kid : String) (pk : RSAPublicKey) :
    lookupKey (storeKey c kid pk) kid = some pk := by
  induction c with
  | nil => simp [storeKey, lookupKey]
  | cons head tail ih =>
    obtain ⟨k, v⟩ := head
    by_cases hk : k = kid
    · simp [storeKey, hk, lookupKey]
    · simp [storeKey, hk, lookupKey, ih]

/-- Storing a key absent from the cache appends a single entry. -/
theorem storeKey_eq_append (c : KeyCache) (kid : String) (pk : RSAPublicKey)
    (h : lookupKey c kid = none) : storeKey c kid pk = c ++ [(kid, pk)] := by
  induction c with
  | nil => simp [storeKey]
  | cons head tail ih =>
    obtain ⟨k, v⟩ := head
    by_cases hk : k = kid
    · simp [lookupKey, hk] at h
    · simp [lookupKey, hk] at h
      simp [storeKey, hk, ih h]

/-- Appending an entry at the back preserves every present binding. -/
theorem lookupKey_append_of_some (c : KeyCache) (k kid : String)
    (pk pk2 : RSAPublicKey) (h : lookupKey c k = some pk) :
    lookupKey (c ++ [(kid, pk2)]) k = some pk := by
  induction c with
  | nil => simp [lookupKey] at h
  | cons head tail ih =>
    obtain ⟨k0, v0⟩ := head
    by_cases hk : k0 = k
    · simp [lookupKey, hk] at h ⊢
      exact h
    · simp [lookupKey, hk] at h ⊢
      exact ih h

/-- The first-match scan finds nothing when no record has the requested
kid. -/
theorem findJWK_eq_none (l : List JWK) (kid : String)
    (h : ∀ j ∈ l, j.Kid ≠ kid) : findJWK l kid = none := by
  induction l with
  | nil => rfl
  | cons j rest ih =>
    show (if j.Kid = kid then some j else findJWK rest kid) = none
    rw [if_neg (h j (by simp))]
    exact ih fun x hx => h x (by simp [hx])

/-- getPublicKey on a cache hit. -/
theorem getPublicKey_eq_hit (cache : KeyCache) (fetch : FetchOutcome) (kid : String)
    (pk : RSAPublicKey) (h : lookupKey cache kid = some pk) :
    getPublicKey cache fetch kid = ⟨Except.ok pk, cache, 0⟩ := by
  unfold getPublicKey
  rw [h]

/-- getPublicKey on a miss whose JWKS fetch fails. -/
theorem getPublicKey_eq_fetchErr (cache : KeyCache) (fetch : FetchOutcome) (kid : String)
    (e : String) (h : lookupKey cache kid = none) (hf : fetchJWKS fetch = Except.error e) :
    getPublicKey cache fetch kid = ⟨Except.error "failed to fetch JWKS", cache, 1⟩ := by
  unfold getPublicKey
  simp only [h, hf]

/-- getPublicKey on a miss whose fetched set has no record for the kid. -/
theorem getPublicKey_eq_unknownKid (cache : KeyCache) (fetch : FetchOutcome) (kid : String)
    (jwks : JWKSet) (h : lookupKey cache kid = none) (hf : fetchJWKS fetch = Except.ok jwks)
    (hj : findJWK jwks.keys kid = none) :
    getPublicKey cache fetch kid = ⟨Except.error "key with kid not found", cache, 1⟩ := by
  unfold getPublicKey
  simp only [h, hf, hj]

/-- getPublicKey on a miss whose matching record fails conversion. -/
theorem getPublicKey_eq_convErr (cache : KeyCache) (fetch : FetchOutcome) (kid : String)
    (jwks : JWKSet) (jwk : JWK) (e : String) (h : lookupKey cache kid = none)
    (hf : fetchJWKS fetch = Except.ok jwks) (hj : findJWK jwks.keys kid = some jwk)
    (hcv : jwkToRSAPublicKey jwk = Except.error e) :
    getPublicKey cache fetch kid =
      ⟨Except.error "failed to convert JWK to RSA public key", cache, 1⟩ := by
  unfold getPublicKey
  simp only [h, hf, hj, hcv]

/-- getPublicKey on a miss that fetches, matches and converts. -/
theorem getPublicKey_eq_success (cache : KeyCache) (fetch : FetchOutcome) (kid : String)
    (jwks : JWKSet) (jwk : JWK) (pk : RSAPublicKey) (h : lookupKey cache kid = none)
    (hf : fetchJWKS fetch = Except.ok jwks) (hj : findJWK jwks.keys kid = some jwk)
    (hcv : jwkToRSAPublicKey jwk = Except.ok pk) :
    getPublicKey cache fetch kid = ⟨Except.ok pk, storeKey cache kid pk, 1⟩ := by
  unfold getPublicKey
  simp only [h, hf, hj, hcv]

/-- Claim C7: when the cache already holds an entry for the requested
kid, getPublicKey returns that cached key with no JWKS fetch and no cache
store; consequently, after one call that succeeded for kid, a second call
for the same kid performs no further fetch and leaves the cache
unchanged. -/
theorem getPublicKey_cache_hit_no_fetch :
    (∀ (cache : KeyCache) (fetch : FetchOutcome) (kid : String) (pk : RSAPublicKey),
        lookupKey cache kid = some pk →
        getPublicKey cache fetch kid = ⟨Except.ok pk, cache, 0⟩)
    ∧ (∀ (cache : KeyCache) (fetch fetch2 : FetchOutcome) (kid : String) (pk : RSAPublicKey),
        (getPublicKey cache fetch kid).result = Except.ok pk →
        getPublicKey (getPublicKey cache fetch kid).keys fetch2 kid =
          ⟨Except.ok pk, (getPublicKey cache fetch kid).keys, 0⟩) := by
  have hit : ∀ (cache : KeyCache) (fetch : FetchOutcome) (kid : String) (pk : RSAPublicKey),
      lookupKey cache kid = some pk →
      getPublicKey cache fetch kid = ⟨Except.ok pk, cache, 0⟩ :=
    fun cache fetch kid pk h => getPublicKey_eq_hit cache fetch kid pk h
  refine ⟨hit, ?_⟩
  intro cache fetch fetch2 kid pk h
  have hl : lookupKey (getPublicKey cache fetch kid).keys kid = some pk := by
    cases hc : lookupKey cache kid with
    | some k =>
      rw [getPublicKey_eq_hit cache fetch kid k hc] at h ⊢
      simp only [Except.ok.injEq] at h
      rw [hc, h]
    | none =>
      cases hf : fetchJWKS fetch with
      | error e =>
        rw [getPublicKey_eq_fetchErr cache fetch kid e hc hf] at h
        simp at h
      | ok jwks =>
        cases hj : findJWK jwks.keys kid with
        | none =>
          rw [getPublicKey_eq_unknownKid cache fetch kid jwks hc hf hj] at h
          simp at h
        | some jwk =>
          cases hcv : jwkToRSAPublicKey jwk with
          | error e =>
            rw [getPublicKey_eq_convErr cache fetch kid jwks jwk e hc hf hj hcv] at h
            simp at h
          | ok publicKey =>
            rw [getPublicKey_eq_success cache fetch kid jwks jwk publicKey hc hf hj hcv] at h ⊢
            simp only [Except.ok.injEq] at h
            rw [← h]
            exact lookupKey_storeKey_self cache kid publicKey
  exact hit _ fetch2 _ _ hl

/-- Claim C7 witness at a concrete cached key. -/
theorem getPublicKey_cache_hit_no_fetch_witness :
    getPublicKey [("k1", (⟨65537, 3⟩ : RSAPublicKey))] FetchOutcome.transportFailure "k1" =
      ⟨Except.ok (⟨65537, 3⟩ : RSAPublicKey), [("k1", (⟨65537, 3⟩ : RSAPublicKey))], 0⟩ :=
  getPublicKey_cache_hit_no_fetch.1 _ _ _ _ (by rfl)

/-- Claim C10: getPublicKey either leaves the cache exactly unchanged (on
a hit or on any fetch, lookup or conversion failure) or, when the
requested kid was absent, appends exactly the one entry for that kid
alongside a successful result; and every binding present before the call
is still found unchanged afterwards. -/
theorem getPublicKey_cache_monotone :
    ∀ (cache : KeyCache) (fetch : FetchOutcome) (kid : String),
      ((getPublicKey cache fetch kid).keys = cache ∨
        (lookupKey cache kid = none ∧ ∃ pk,
          (getPublicKey cache fetch kid).result = Except.ok pk ∧
          (getPublicKey cache fetch kid).keys = cache ++ [(kid, pk)]))
      ∧ ∀ (k : String) (pk : RSAPublicKey), lookupKey cache k = some pk →
          lookupKey (getPublicKey cache fetch kid).keys k = some pk := by
  intro cache fetch kid
  have hmain : (getPublicKey cache fetch kid).keys = cache ∨
      (lookupKey cache kid = none ∧ ∃ pk,
        (getPublicKey cache fetch kid).result = Except.ok pk ∧
        (getPublicKey cache fetch kid).keys = cache ++ [(kid, pk)]) := by
    cases hc : lookupKey cache kid with
    | some k => left; rw [getPublicKey_eq_hit cache fetch kid k hc]
    | none =>
      cases hf : fetchJWKS fetch with
      | error e => left; rw [getPublicKey_eq_fetchErr cache fetch kid e hc hf]
      | ok jwks =>
        cases hj : findJWK jwks.keys kid with
        | none => left; rw [getPublicKey_eq_unknownKid cache fetch kid jwks hc hf hj]
        | some jwk =>
          cases hcv : jwkToRSAPublicKey jwk with
          | error e => left; rw [getPublicKey_eq_convErr cache fetch kid jwks jwk e hc hf hj hcv]
          | ok publicKey =>
            right
            refine ⟨rfl, publicKey, ?_, ?_⟩
            · rw [getPublicKey_eq_success cache fetch kid jwks jwk publicKey hc hf hj hcv]
            · rw [getPublicKey_eq_success cache fetch kid jwks jwk publicKey hc hf hj hcv]
              exact storeKey_eq_append cache kid publicKey hc
  refine ⟨hmain, ?_⟩
  intro k pk h
  rcases hmain with heq | ⟨hnone, pk2, hres, heq⟩
  · rw [heq]; exact h
  · rw [heq]; exact lookupKey_append_of_some cache k kid pk pk2 h

/-- Claim C10 witness: a pre-existing binding survives a call for a
different kid whose fetch fails. -/
theorem getPublicKey_cache_monotone_witness :
    lookupKey (getPublicKey [("k1", (⟨65537, 3⟩ : RSAPublicKey))]
      FetchOutcome.transportFailure "k2").keys "k1" = some (⟨65537, 3⟩ : RSAPublicKey) :=
  (getPublicKey_cache_monotone _ _ _).2 "k1" (⟨65537, 3⟩ : RSAPublicKey) (by rfl)

/-- ValidateToken when key resolution fails: the overall result is the
generic key-resolution error and the cache and fetch count are those of
the getPublicKey call. -/
theorem validateToken_keyErr (v : JWTValidator) (fetch : FetchOutcome) (t : Token)
    (now : Int) (kid : String) (e : String)
    (hkid : asString t.kid = some kid)
    (hres : (getPublicKey v.keys fetch kid).result = Except.error e) :
    ValidateToken v fetch t now =
      ⟨Except.error "failed to get public key", (getPublicKey v.keys fetch kid).keys,
        (getPublicKey v.keys fetch kid).fetchCount⟩ := by
  unfold ValidateToken
  simp only [hkid, hres]

/-- Claim C6: when the header kid matches the Kid of no record in the
fetched key set, key resolution fails with the unknown-key error and an
unchanged cache, even when the key set is non-empty, and the token under
validation is rejected; no other key of the set is ever used. -/
theorem getPublicKey_unknown_kid_no_fallback :
    ∀ (cache : KeyCache) (fetch : FetchOutcome) (kid : String) (jwks : JWKSet),
      lookupKey cache kid = none →
      fetchJWKS fetch = Except.ok jwks →
      (∀ j ∈ jwks.keys, j.Kid ≠ kid) →
      (getPublicKey cache fetch kid = ⟨Except.error "key with kid not found", cache, 1⟩
        ∧ ∀ (v : JWTValidator) (t : Token) (now : Int),
            v.keys = cache → asString t.kid = some kid →
            isOk (ValidateToken v fetch t now).claims = false) := by
  intro cache fetch kid jwks hmiss hfetch hall
  have h1 : getPublicKey cache fetch kid = ⟨Except.error "key with kid not found", cache, 1⟩ :=
    getPublicKey_eq_unknownKid cache fetch kid jwks hmiss hfetch
      (findJWK_eq_none jwks.keys kid hall)
  refine ⟨h1, ?_⟩
  intro v t now hv hkid
  have h2 : (getPublicKey v.keys fetch kid).result = Except.error "key with kid not found" := by
    rw [hv, h1]
  rw [validateToken_keyErr v fetch t now kid _ hkid h2]
  rfl

/-- Claim C6 witness: a one-record key set without the requested kid. -/
theorem getPublicKey_unknown_kid_no_fallback_witness :
    getPublicKey []
      (FetchOutcome.response 200 (some ⟨[⟨"RSA", "other", "sig", "AQAB", "AQAB"⟩]⟩)) "k1" =
      ⟨Except.error "key with kid not found", [], 1⟩ :=
  (getPublicKey_unknown_kid_no_fallback []
    (FetchOutcome.response 200 (some ⟨[⟨"RSA", "other", "sig", "AQAB", "AQAB"⟩]⟩)) "k1"
    ⟨[⟨"RSA", "other", "sig", "AQAB", "AQAB"⟩]⟩ (by rfl) (by rfl) (by decide)).1

/-- Claim C8: a JWKS response with any status other than 200 makes
fetchJWKS return an error with no retry and no acceptance of the body, so
key resolution on a cache miss fails (cache unchanged, exactly the one
fetch) and the token under validation is rejected; every outcome is a
returned error value, never a panic. -/
theorem fetchJWKS_non_200_rejects :
    ∀ (status : Nat) (body : Option JWKSet), status ≠ 200 →
      (fetchJWKS (FetchOutcome.response status body) =
          Except.error "failed to fetch JWKS: bad status"
        ∧ (∀ (cache : KeyCache) (kid : String), lookupKey cache kid = none →
            getPublicKey cache (FetchOutcome.response status body) kid =
              ⟨Except.error "failed to fetch JWKS", cache, 1⟩)
        ∧ ∀ (v : JWTValidator) (t : Token) (now : Int) (kid : String),
            lookupKey v.keys kid = none → asString t.kid = some kid →
            isOk (ValidateToken v (FetchOutcome.response status body) t now).claims = false) := by
  intro status body hs
  have hf : fetchJWKS (FetchOutcome.response status body) =
      Except.error "failed to fetch JWKS: bad status" := by
    simp only [fetchJWKS]
    rw [if_pos hs]
  refine ⟨hf, ?_, ?_⟩
  · intro cache kid hmiss
    exact getPublicKey_eq_fetchErr cache _ kid _ hmiss hf
  · intro v t now kid hmiss hkid
    have h2 : (getPublicKey v.keys (FetchOutcome.response status body) kid).result =
        Except.error "failed to fetch JWKS" := by
      rw [getPublicKey_eq_fetchErr v.keys _ kid _ hmiss hf]
    rw [validateToken_keyErr v _ t now kid _ hkid h2]
    rfl

/-- Claim C8 witness: a 500 response is a hard fetch failure. -/
theorem fetchJWKS_non_200_rejects_witness :
    fetchJWKS (FetchOutcome.response 500 none) =
      Except.error "failed to fetch JWKS: bad status" :=
  (fetchJWKS_non_200_rejects 500 none (by decide)).1

/-- Claim C2 counterexample: a JWK whose exponent field base64url-decodes
to 2 to the 64 (nine bytes: one, then eight zero bytes), a value too
large for a 64-bit machine-word exponent, is not rejected:
jwkToRSAPublicKey returns success, with the key exponent silently
truncated to 0 instead of an explicit error. -/
theorem jwkToRSAPublicKey_big_exponent_not_rejected :
    (base64RawURLDecode "AQAAAAAAAAAA").map bigIntSetBytes = some (2 ^ 64) ∧
    jwkToRSAPublicKey ⟨"RSA", "big", "sig", "AQAB", "AQAAAAAAAAAA"⟩ =
      Except.ok ⟨65537, 0⟩ := by
  constructor
  · rfl
  · rfl

/-- Claim C2 amended: jwkToRSAPublicKey fails only when a field is not
valid base64url; whenever both fields decode, it returns a key with no
range check on the exponent, whose E component is the low 64 bits of the
decoded exponent reinterpreted as a signed machine word — silent
truncation, not an error, when the decoded value exceeds that width. -/
theorem jwkToRSAPublicKey_truncates_silently (jwk : JWK) (nB eB : List Nat)
    (hn : base64RawURLDecode jwk.N = some nB)
    (he : base64RawURLDecode jwk.E = some eB) :
    jwkToRSAPublicKey jwk =
      Except.ok ⟨bigIntSetBytes nB, bigIntToInt64 (bigIntSetBytes eB)⟩ := by
  unfold jwkToRSAPublicKey
  rw [hn, he]

/-- Claim C2 amended witness at the oversized concrete exponent. -/
theorem jwkToRSAPublicKey_truncates_silently_witness :
    jwkToRSAPublicKey ⟨"RSA", "big2", "sig", "AQAB", "AQAAAAAAAAAA"⟩ =
      Except.ok ⟨bigIntSetBytes [1, 0, 1],
        bigIntToInt64 (bigIntSetBytes [1, 0, 0, 0, 0, 0, 0, 0, 0])⟩ :=
  jwkToRSAPublicKey_truncates_silently ⟨"RSA", "big2", "sig", "AQAB", "AQAAAAAAAAAA"⟩
    [1, 0, 1] [1, 0, 0, 0, 0, 0, 0, 0, 0] (by rfl) (by rfl)

/-- ValidateToken when the header kid is absent or not a string. -/
theorem validateToken_kidErr (v : JWTValidator) (fetch : FetchOutcome) (t : Token)
    (now : Int) (hkid : asString t.kid = none) :
    ValidateToken v fetch t now = ⟨Except.error "token missing kid header", v.keys, 0⟩ := by
  unfold ValidateToken
  simp only [hkid]

/-- ValidateToken when the jwt.Parse stage fails (wrong method family,
bad signature, or library claim validation). -/
theorem validateToken_parseErr (v : JWTValidator) (fetch : FetchOutcome) (t : Token)
    (now : Int) (kid : String) (pk : RSAPublicKey) (e : String)
    (hkid : asString t.kid = some kid)
    (hres : (getPublicKey v.keys fetch kid).result = Except.ok pk)
    (hp : jwtParseVerify t now = Except.error e) :
    ValidateToken v fetch t now =
      ⟨Except.error "failed to validate token", (getPublicKey v.keys fetch kid).keys,
        (getPublicKey v.keys fetch kid).fetchCount⟩ := by
  unfold ValidateToken
  simp only [hkid, hres, hp]

/-- ValidateToken when the token_use policy check fails. -/
theorem validateToken_useErr (v : JWTValidator) (fetch : FetchOutcome) (t : Token)
    (now : Int) (kid : String) (pk : RSAPublicKey) (u : Unit) (e : String)
    (hkid : asString t.kid = some kid)
    (hres : (getPublicKey v.keys fetch kid).result = Except.ok pk)
    (hp : jwtParseVerify t now = Except.ok u)
    (hu : checkTokenUse t.payload = Except.error e) :
    ValidateToken v fetch t now =
      ⟨Except.error e, (getPublicKey v.keys fetch kid).keys,
        (getPublicKey v.keys fetch kid).fetchCount⟩ := by
  unfold ValidateToken
  simp only [hkid, hres, hp, hu]

/-- ValidateToken when the issuer policy check fails. -/
theorem validateToken_issErr (v : JWTValidator) (fetch : FetchOutcome) (t : Token)
    (now : Int) (kid : String) (pk : RSAPublicKey) (u u2 : Unit) (e : String)
    (hkid : asString t.kid = some kid)
    (hres : (getPublicKey v.keys fetch kid).result = Except.ok pk)
    (hp : jwtParseVerify t now = Except.ok u)
    (hu : checkTokenUse t.payload = Except.ok u2)
    (hi : checkIssuer v.issuer t.payload = Except.error e) :
    ValidateToken v fetch t now =
      ⟨Except.error e, (getPublicKey v.keys fetch kid).keys,
        (getPublicKey v.keys fetch kid).fetchCount⟩ := by
  unfold ValidateToken
  simp only [hkid, hres, hp, hu, hi]

/-- ValidateToken when the manual expiration check fails. -/
theorem validateToken_expErr (v : JWTValidator) (fetch : FetchOutcome) (t : Token)
    (now : Int) (kid : String) (pk : RSAPublicKey) (u u2 u3 : Unit) (e : String)
    (hkid : asString t.kid = some kid)
    (hres : (getPublicKey v.keys fetch kid).result = Except.ok pk)
    (hp : jwtParseVerify t now = Except.ok u)
    (hu : checkTokenUse t.payload = Except.ok u2)
    (hi : checkIssuer v.issuer t.payload = Except.ok u3)
    (hx : checkExp t.payload now = Except.error e) :
    ValidateToken v fetch t now =
      ⟨Except.error e, (getPublicKey v.keys fetch kid).keys,
        (getPublicKey v.keys fetch kid).fetchCount⟩ := by
  unfold ValidateToken
  simp only [hkid, hres, hp, hu, hi, hx]

/-- ValidateToken when every stage passes: the claims map is returned. -/
theorem validateToken_success (v : JWTValidator) (fetch : FetchOutcome) (t : Token)
    (now : Int) (kid : String) (pk : RSAPublicKey) (u u2 u3 u4 : Unit)
    (hkid : asString t.kid = some kid)
    (hres : (getPublicKey v.keys fetch kid).result = Except.ok pk)
    (hp : jwtParseVerify t now = Except.ok u)
    (hu : checkTokenUse t.payload = Except.ok u2)
    (hi : checkIssuer v.issuer t.payload = Except.ok u3)
    (hx : checkExp t.payload now = Except.ok u4) :
    ValidateToken v fetch t now =
      ⟨Except.ok t.payload, (getPublicKey v.keys fetch kid).keys,
        (getPublicKey v.keys fetch kid).fetchCount⟩ := by
  unfold ValidateToken
  simp only [hkid, hres, hp, hu, hi, hx]

/-- A successful checkTokenUse means the claim is the literal string
access. -/
theorem checkTokenUse_ok {p : Claims} {u : Unit} (h : checkTokenUse p = Except.ok u) :
    claimLookup p "token_use" = some (ClaimValue.str "access") := by
  unfold checkTokenUse at h
  cases ha : asString (claimLookup p "token_use") with
  | none => rw [ha] at h; simp at h
  | some s =>
    rw [ha] at h
    by_cases hs : s = "access"
    · rw [hs] at ha
      exact asString_eq_some ha
    · simp [hs] at h

/-- A successful checkIssuer with a non-empty configured issuer means the
iss claim is exactly that issuer. -/
theorem checkIssuer_ok {issuer : String} {p : Claims} {u : Unit}
    (hne : issuer ≠ "") (h : checkIssuer issuer p = Except.ok u) :
    claimLookup p "iss" = some (ClaimValue.str issuer) := by
  unfold checkIssuer at h
  rw [if_neg hne] at h
  cases ha : asString (claimLookup p "iss") with
  | none => rw [ha] at h; simp at h
  | some s =>
    rw [ha] at h
    by_cases hs : s = issuer
    · rw [hs] at ha
      exact asString_eq_some ha
    · simp [hs] at h

/-- Claim C3: a token declaring a signing method outside the RSA family
(for example the symmetric HS256) is always rejected, and the resolved
public key is never applied to it: flipping whether the signature would
verify cannot change the outcome, because the keyfunc refuses the method
before any verification. -/
theorem validateToken_rejects_non_rsa_alg (v : JWTValidator) (fetch : FetchOutcome)
    (t : Token) (now : Int) (halg : t.alg.isRSAMethod = false) :
    isOk (ValidateToken v fetch t now).claims = false ∧
    ValidateToken v fetch { t with sigOk := true } now =
      ValidateToken v fetch { t with sigOk := false } now := by
  obtain ⟨kd, alg, p, sg⟩ := t
  have hparse : ∀ b : Bool, jwtParseVerify ⟨kd, alg, p, b⟩ now =
      Except.error "unexpected signing method" := by
    intro b
    unfold jwtParseVerify
    simp [halg]
  constructor
  · cases hk : asString kd with
    | none =>
      rw [validateToken_kidErr v fetch ⟨kd, alg, p, sg⟩ now hk]
      rfl
    | some kid =>
      cases hr : (getPublicKey v.keys fetch kid).result with
      | error e =>
        rw [validateToken_keyErr v fetch ⟨kd, alg, p, sg⟩ now kid e hk hr]
        rfl
      | ok pk =>
        rw [validateToken_parseErr v fetch ⟨kd, alg, p, sg⟩ now kid pk _ hk hr (hparse sg)]
        rfl
  · cases hk : asString kd with
    | none =>
      rw [validateToken_kidErr v fetch ⟨kd, alg, p, true⟩ now hk,
        validateToken_kidErr v fetch ⟨kd, alg, p, false⟩ now hk]
    | some kid =>
      cases hr : (getPublicKey v.keys fetch kid).result with
      | error e =>
        rw [validateToken_keyErr v fetch ⟨kd, alg, p, true⟩ now kid e hk hr,
          validateToken_keyErr v fetch ⟨kd, alg, p, false⟩ now kid e hk hr]
      | ok pk =>
        rw [validateToken_parseErr v fetch ⟨kd, alg, p, true⟩ now kid pk _ hk hr (hparse true),
          validateToken_parseErr v fetch ⟨kd, alg, p, false⟩ now kid pk _ hk hr (hparse false)]

/-- Claim C3 witness: an HS256 token with a would-be-valid signature is
rejected. -/
theorem validateToken_rejects_non_rsa_alg_witness :
    isOk (ValidateToken ⟨"u", "", [("k1", (⟨65537, 3⟩ : RSAPublicKey))]⟩
      FetchOutcome.transportFailure
      ⟨some (ClaimValue.str "k1"), Alg.HS256,
        [("token_use", ClaimValue.str "access"), ("exp", ClaimValue.num 2000)], true⟩
      1000).claims = false :=
  (validateToken_rejects_non_rsa_alg ⟨"u", "", [("k1", (⟨65537, 3⟩ : RSAPublicKey))]⟩
    FetchOutcome.transportFailure
    ⟨some (ClaimValue.str "k1"), Alg.HS256,
      [("token_use", ClaimValue.str "access"), ("exp", ClaimValue.num 2000)], true⟩
    1000 (by rfl)).1

/-- Claim C4: a token passes ValidateToken only when its token_use claim
is present, a string, and exactly the literal access; any absent,
non-string or different value is rejected. -/
theorem validateToken_requires_access_token_use (v : JWTValidator) (fetch : FetchOutcome)
    (t : Token) (now : Int) (h : isOk (ValidateToken v fetch t now).claims = true) :
    claimLookup t.payload "token_use" = some (ClaimValue.str "access") := by
  cases hk : asString t.kid with
  | none => rw [validateToken_kidErr v fetch t now hk] at h; simp [isOk] at h
  | some kid =>
    cases hr : (getPublicKey v.keys fetch kid).result with
    | error e =>
      rw [validateToken_keyErr v fetch t now kid e hk hr] at h
      simp [isOk] at h
    | ok pk =>
      cases hp : jwtParseVerify t now with
      | error e =>
        rw [validateToken_parseErr v fetch t now kid pk e hk hr hp] at h
        simp [isOk] at h
      | ok u =>
        cases hu : checkTokenUse t.payload with
        | error e =>
          rw [validateToken_useErr v fetch t now kid pk u e hk hr hp hu] at h
          simp [isOk] at h
        | ok u2 => exact checkTokenUse_ok hu

/-- Claim C4 witness: a fully accepted concrete validation carries
token_use access. -/
theorem validateToken_requires_access_token_use_witness :
    claimLookup [("token_use", ClaimValue.str "access"), ("exp", ClaimValue.num 2000)]
      "token_use" = some (ClaimValue.str "access") :=
  validateToken_requires_access_token_use
    ⟨"u", "", [("k1", (⟨65537, 3⟩ : RSAPublicKey))]⟩ FetchOutcome.transportFailure
    ⟨some (ClaimValue.str "k1"), Alg.RS256,
      [("token_use", ClaimValue.str "access"), ("exp", ClaimValue.num 2000)], true⟩
    1000 (by rfl)

/-- Claim C1: for a token whose other checks all pass (kid resolves to a
key, RSA method, verifying signature, no nbf claim, token_use and issuer
policies satisfied), ValidateToken accepts exactly when the exp claim is
present, numeric, and the current time is strictly before it. In
particular exp equal to the current time is rejected (by the strict
library-side check inside jwt.Parse, which runs before the more lenient
manual check), exp one second in the future is accepted, and an absent or
non-numeric exp is rejected. -/
theorem validateToken_expiry_strict (v : JWTValidator) (fetch : FetchOutcome)
    (t : Token) (now : Int) (kid : String) (pk : RSAPublicKey)
    (hkid : asString t.kid = some kid)
    (hres : (getPublicKey v.keys fetch kid).result = Except.ok pk)
    (halg : t.alg.isRSAMethod = true) (hsig : t.sigOk = true)
    (hnbf : claimLookup t.payload "nbf" = none)
    (huse : checkTokenUse t.payload = Except.ok ())
    (hiss : checkIssuer v.issuer t.payload = Except.ok ()) :
    isOk (ValidateToken v fetch t now).claims = expClaimStrictlyFuture t.payload now := by
  cases hexp : claimLookup t.payload "exp" with
  | none =>
    have hp : jwtParseVerify t now = Except.ok () := by
      unfold jwtParseVerify verifyExpiresAtV5 verifyNotBeforeV5
      rw [hexp, hnbf]
      simp [halg, hsig]
    have hx : checkExp t.payload now = Except.error "token missing exp claim" := by
      simp [checkExp, asNumber, hexp]
    rw [validateToken_expErr v fetch t now kid pk () () () _ hkid hres hp huse hiss hx]
    simp [isOk, expClaimStrictlyFuture, hexp]
  | some cv =>
    cases cv with
    | num e =>
      by_cases hlt : now < e
      · have hp : jwtParseVerify t now = Except.ok () := by
          unfold jwtParseVerify verifyExpiresAtV5 verifyNotBeforeV5
          rw [hexp, hnbf]
          simp [halg, hsig, hlt]
        have hng : ¬ now > e := by omega
        have hx : checkExp t.payload now = Except.ok () := by
          simp [checkExp, asNumber, hexp, hng]
        rw [validateToken_success v fetch t now kid pk () () () () hkid hres hp huse hiss hx]
        simp [isOk, expClaimStrictlyFuture, hexp, hlt]
      · have hp : jwtParseVerify t now = Except.error "token is expired" := by
          unfold jwtParseVerify verifyExpiresAtV5
          rw [hexp]
          simp [halg, hsig, hlt]
        rw [validateToken_parseErr v fetch t now kid pk _ hkid hres hp]
        simp [isOk, expClaimStrictlyFuture, hexp, hlt]
    | str s =>
      have hp : jwtParseVerify t now = Except.error "exp is invalid" := by
        unfold jwtParseVerify verifyExpiresAtV5
        rw [hexp]
        simp [halg, hsig]
      rw [validateToken_parseErr v fetch t now kid pk _ hkid hres hp]
      simp [isOk, expClaimStrictlyFuture, hexp]
    | other =>
      have hp : jwtParseVerify t now = Except.error "exp is invalid" := by
        unfold jwtParseVerify verifyExpiresAtV5
        rw [hexp]
        simp [halg, hsig]
      rw [validateToken_parseErr v fetch t now kid pk _ hkid hres hp]
      simp [isOk, expClaimStrictlyFuture, hexp]

/-- Claim C1 witness: with every other check satisfied and exp one second
ahead of now, the acceptance equation holds concretely (both sides
true). -/
theorem validateToken_expiry_strict_witness :
    isOk (ValidateToken ⟨"u", "", [("k1", (⟨65537, 3⟩ : RSAPublicKey))]⟩
        FetchOutcome.transportFailure
        ⟨some (ClaimValue.str "k1"), Alg.RS256,
          [("token_use", ClaimValue.str "access"), ("exp", ClaimValue.num 1001)], true⟩
        1000).claims =
      expClaimStrictlyFuture
        [("token_use", ClaimValue.str "access"), ("exp", ClaimValue.num 1001)] 1000 :=
  validateToken_expiry_strict ⟨"u", "", [("k1", (⟨65537, 3⟩ : RSAPublicKey))]⟩
    FetchOutcome.transportFailure
    ⟨some (ClaimValue.str "k1"), Alg.RS256,
      [("token_use", ClaimValue.str "access"), ("exp", ClaimValue.num 1001)], true⟩
    1000 "k1" ⟨65537, 3⟩ (by rfl) (by rfl) (by rfl) (by rfl) (by rfl) (by rfl) (by rfl)

/-- Claim C5: with a non-empty configured issuer a token passes only if
its iss claim is present, a string, and exactly the configured issuer;
with an empty configured issuer the check is skipped entirely — the
outcome does not depend on the iss claim at all (any or missing iss
passes it). -/
theorem validateToken_issuer_policy :
    (∀ (v : JWTValidator) (fetch : FetchOutcome) (t : Token) (now : Int),
        v.issuer ≠ "" → isOk (ValidateToken v fetch t now).claims = true →
        claimLookup t.payload "iss" = some (ClaimValue.str v.issuer))
    ∧ ∀ (v : JWTValidator) (fetch : FetchOutcome) (now : Int) (kd : Option ClaimValue)
        (alg : Alg) (sg : Bool) (p1 p2 : Claims),
        v.issuer = "" →
        claimLookup p1 "token_use" = claimLookup p2 "token_use" →
        claimLookup p1 "exp" = claimLookup p2 "exp" →
        claimLookup p1 "nbf" = claimLookup p2 "nbf" →
        isOk (ValidateToken v fetch ⟨kd, alg, p1, sg⟩ now).claims =
          isOk (ValidateToken v fetch ⟨kd, alg, p2, sg⟩ now).claims := by
  constructor
  · intro v fetch t now hne h
    cases hk : asString t.kid with
    | none => rw [validateToken_kidErr v fetch t now hk] at h; simp [isOk] at h
    | some kid =>
      cases hr : (getPublicKey v.keys fetch kid).result with
      | error e =>
        rw [validateToken_keyErr v fetch t now kid e hk hr] at h
        simp [isOk] at h
      | ok pk =>
        cases hp : jwtParseVerify t now with
        | error e =>
          rw [validateToken_parseErr v fetch t now kid pk e hk hr hp] at h
          simp [isOk] at h
        | ok u =>
          cases hu : checkTokenUse t.payload with
          | error e =>
            rw [validateToken_useErr v fetch t now kid pk u e hk hr hp hu] at h
            simp [isOk] at h
          | ok u2 =>
            cases hi : checkIssuer v.issuer t.payload with
            | error e =>
              rw [validateToken_issErr v fetch t now kid pk u u2 e hk hr hp hu hi] at h
              simp [isOk] at h
            | ok u3 => exact checkIssuer_ok hne hi
  · intro v fetch now kd alg sg p1 p2 hiss0 hU hX hN
    have hJ : jwtParseVerify ⟨kd, alg, p1, sg⟩ now = jwtParseVerify ⟨kd, alg, p2, sg⟩ now := by
      unfold jwtParseVerify verifyExpiresAtV5 verifyNotBeforeV5
      rw [hX, hN]
    have hU2 : checkTokenUse p1 = checkTokenUse p2 := by
      unfold checkTokenUse
      rw [hU]
    have hX2 : checkExp p1 now = checkExp p2 now := by
      unfold checkExp
      rw [hX]
    have hI1 : checkIssuer v.issuer p1 = Except.ok () := by
      rw [hiss0]
      simp [checkIssuer]
    have hI2 : checkIssuer v.issuer p2 = Except.ok () := by
      rw [hiss0]
      simp [checkIssuer]
    cases hk : asString kd with
    | none =>
      rw [validateToken_kidErr v fetch ⟨kd, alg, p1, sg⟩ now hk,
        validateToken_kidErr v fetch ⟨kd, alg, p2, sg⟩ now hk]
    | some kid =>
      cases hr : (getPublicKey v.keys fetch kid).result with
      | error e =>
        rw [validateToken_keyErr v fetch ⟨kd, alg, p1, sg⟩ now kid e hk hr,
          validateToken_keyErr v fetch ⟨kd, alg, p2, sg⟩ now kid e hk hr]
      | ok pk =>
        cases hp : jwtParseVerify ⟨kd, alg, p1, sg⟩ now with
        | error e =>
          rw [validateToken_parseErr v fetch ⟨kd, alg, p1, sg⟩ now kid pk e hk hr hp,
            validateToken_parseErr v fetch ⟨kd, alg, p2, sg⟩ now kid pk e hk hr
              (hJ.symm.trans hp)]
        | ok u =>
          have hp2 : jwtParseVerify ⟨kd, alg, p2, sg⟩ now = Except.ok u := hJ.symm.trans hp
          cases hu : checkTokenUse p1 with
          | error e =>
            rw [validateToken_useErr v fetch ⟨kd, alg, p1, sg⟩ now kid pk u e hk hr hp hu,
              validateToken_useErr v fetch ⟨kd, alg, p2, sg⟩ now kid pk u e hk hr hp2
                (hU2.symm.trans hu)]
          | ok u2 =>
            have hu2 : checkTokenUse p2 = Except.ok u2 := hU2.symm.trans hu
            cases hx : checkExp p1 now with
            | error e =>
              rw [validateToken_expErr v fetch ⟨kd, alg, p1, sg⟩ now kid pk u u2 () e
                  hk hr hp hu hI1 hx,
                validateToken_expErr v fetch ⟨kd, alg, p2, sg⟩ now kid pk u u2 () e
                  hk hr hp2 hu2 hI2 (hX2.symm.trans hx)]
            | ok u4 =>
              rw [validateToken_success v fetch ⟨kd, alg, p1, sg⟩ now kid pk u u2 () u4
                  hk hr hp hu hI1 hx,
                validateToken_success v fetch ⟨kd, alg, p2, sg⟩ now kid pk u u2 () u4
                  hk hr hp2 hu2 hI2 (hX2.symm.trans hx)]
              rfl

/-- Claim C5 witness: a concrete accepted token under a configured issuer
carries exactly that issuer. -/
theorem validateToken_issuer_policy_witness :
    claimLookup [("token_use", ClaimValue.str "access"),
      ("iss", ClaimValue.str "https://issuer.example"), ("exp", ClaimValue.num 2000)] "iss" =
      some (ClaimValue.str "https://issuer.example") :=
  validateToken_issuer_policy.1
    ⟨"u", "https://issuer.example", [("k1", (⟨65537, 3⟩ : RSAPublicKey))]⟩
    FetchOutcome.transportFailure
    ⟨some (ClaimValue.str "k1"), Alg.RS256,
      [("token_use", ClaimValue.str "access"),
        ("iss", ClaimValue.str "https://issuer.example"), ("exp", ClaimValue.num 2000)], true⟩
    1000 (by decide) (by rfl)

/-- Claim C9: every rejection of the Request Gate is an HTTP 401 whose
JSON error message is exactly one of the four fixed strings, each tied to
its condition: missing header, wrong scheme, empty token, and one generic
message for every ValidateToken failure regardless of its internal cause;
a rejection is never the next outcome, so the wrapped handler is not
invoked. -/
theorem middleware_unauthorized_responses :
    ∀ (validate : String → Except String Claims) (h : String),
      (∀ (s : Nat) (m : String),
        JWTAuthMiddleware validate h = MiddlewareOutcome.unauthorized s m →
        s = 401 ∧
          (m = "Authorization header is required" ∨
           m = "Authorization header must start with \x27Bearer \x27" ∨
           m = "Token is required" ∨
           m = "Invalid or expired token"))
      ∧ (h = "" → JWTAuthMiddleware validate h =
          MiddlewareOutcome.unauthorized 401 "Authorization header is required")
      ∧ (h ≠ "" → goHasPrefix h "Bearer " = false → JWTAuthMiddleware validate h =
          MiddlewareOutcome.unauthorized 401
            "Authorization header must start with \x27Bearer \x27")
      ∧ (h ≠ "" → goHasPrefix h "Bearer " = true → goTrimPrefix h "Bearer " = "" →
          JWTAuthMiddleware validate h =
            MiddlewareOutcome.unauthorized 401 "Token is required")
      ∧ ∀ (e : String), h ≠ "" → goHasPrefix h "Bearer " = true →
          goTrimPrefix h "Bearer " ≠ "" →
          validate (goTrimPrefix h "Bearer ") = Except.error e →
          JWTAuthMiddleware validate h =
            MiddlewareOutcome.unauthorized 401 "Invalid or expired token" := by
  intro validate h
  have P1 : h = "" → JWTAuthMiddleware validate h =
      MiddlewareOutcome.unauthorized 401 "Authorization header is required" := by
    intro h0
    simp [JWTAuthMiddleware, h0]
  have P2 : h ≠ "" → goHasPrefix h "Bearer " = false → JWTAuthMiddleware validate h =
      MiddlewareOutcome.unauthorized 401
        "Authorization header must start with \x27Bearer \x27" := by
    intro h0 h1
    simp [JWTAuthMiddleware, h0, h1]
  have P3 : h ≠ "" → goHasPrefix h "Bearer " = true → goTrimPrefix h "Bearer " = "" →
      JWTAuthMiddleware validate h =
        MiddlewareOutcome.unauthorized 401 "Token is required" := by
    intro h0 h1 h2
    simp [JWTAuthMiddleware, h0, h1, h2]
  have P4 : ∀ (e : String), h ≠ "" → goHasPrefix h "Bearer " = true →
      goTrimPrefix h "Bearer " ≠ "" →
      validate (goTrimPrefix h "Bearer ") = Except.error e →
      JWTAuthMiddleware validate h =
        MiddlewareOutcome.unauthorized 401 "Invalid or expired token" := by
    intro e h0 h1 h2 hv
    simp [JWTAuthMiddleware, h0, h1, h2, hv]
  have P5 : ∀ (c : Claims), h ≠ "" → goHasPrefix h "Bearer " = true →
      goTrimPrefix h "Bearer " ≠ "" →
      validate (goTrimPrefix h "Bearer ") = Except.ok c →
      JWTAuthMiddleware validate h =
        MiddlewareOutcome.next (successEntries (goTrimPrefix h "Bearer ") c) := by
    intro c h0 h1 h2 hv
    simp [JWTAuthMiddleware, h0, h1, h2, hv]
  refine ⟨?_, P1, P2, P3, P4⟩
  intro s m hm
  by_cases h0 : h = ""
  · rw [P1 h0] at hm
    injection hm with hs hm2
    exact ⟨hs.symm, Or.inl hm2.symm⟩
  · by_cases h1 : goHasPrefix h "Bearer " = true
    · by_cases h2 : goTrimPrefix h "Bearer " = ""
      · rw [P3 h0 h1 h2] at hm
        injection hm with hs hm2
        exact ⟨hs.symm, Or.inr (Or.inr (Or.inl hm2.symm))⟩
      · cases hv : validate (goTrimPrefix h "Bearer ") with
        | error e =>
          rw [P4 e h0 h1 h2 hv] at hm
          injection hm with hs hm2
          exact ⟨hs.symm, Or.inr (Or.inr (Or.inr hm2.symm))⟩
        | ok c =>
          rw [P5 c h0 h1 h2 hv] at hm
          exact MiddlewareOutcome.noConfusion hm
    · have h1f : goHasPrefix h "Bearer " = false := by
        cases hb : goHasPrefix h "Bearer "
        · rfl
        · exact absurd hb h1
      rw [P2 h0 h1f] at hm
      injection hm with hs hm2
      exact ⟨hs.symm, Or.inr (Or.inl hm2.symm)⟩

/-- Claim C9 witness: a syntactically valid bearer header whose token
fails validation for an arbitrary internal reason gets the one generic
401 message. -/
theorem middleware_unauthorized_responses_witness :
    JWTAuthMiddleware (fun _ => Except.error "sig check failed") "Bearer abc" =
      MiddlewareOutcome.unauthorized 401 "Invalid or expired token" :=
  (middleware_unauthorized_responses (fun _ => Except.error "sig check failed")
    "Bearer abc").2.2.2.2 "sig check failed" (by decide) (by decide) (by decide) (by rfl)

end AuthSpec
